import Mathlib

/-!
# Application repository, `org` command requirements and `env` rendering

A shallow embedding of

* `cf/api/applications/applications.go` (`CloudControllerApplicationRepository`),
* `cf/commands/organization/org.go` (`ShowOrg.GetRequirements`),
* the environment rendering exercised by `cf/commands/application/env_test.go`,

together with the properties of these functions that the specification states.

Conventions.  A Go `string` is a Lean `String`, standing for its UTF-8 bytes;
`fmt.Sprintf` with `%s` verbs is concatenation.  A Go `error` is an
`Option GoError`, `none` being `nil`.  A call through the gateway interface takes the gateway's state and the pointee of its
output argument and gives back the new pointee, the error and the new state;
every call is also appended to a log, so that "which calls were made" can be
stated.
-/

namespace CF

/-! ## Strings and `net/url.QueryEscape` -/

/-- The digit `"0123456789ABCDEF"[n]` used by `net/url.escape`. -/
def hexDigit (n : Nat) : Char := "0123456789ABCDEF".data.getD n '0'

/-- The UTF-8 bytes of the code point `c`: the bytes a Go string holds for it. -/
def utf8Bytes (c : Nat) : List Nat :=
  if c < 0x80 then [c]
  else if c < 0x800 then [0xC0 + c / 64, 0x80 + c % 64]
  else if c < 0x10000 then [0xE0 + c / 4096, 0x80 + c / 64 % 64, 0x80 + c % 64]
  else [0xF0 + c / 262144, 0x80 + c / 4096 % 64, 0x80 + c / 64 % 64, 0x80 + c % 64]

/-- Go standard library, `net/url.shouldEscape(c, encodeQueryComponent)`: only the
unreserved bytes (letters, digits, `-`, `_`, `.`, `~`) are left alone; the reserved
ones, `:` among them, and every other byte are escaped. -/
def shouldEscape (c : Nat) : Bool :=
  if (65 ≤ c ∧ c ≤ 90) ∨ (97 ≤ c ∧ c ≤ 122) ∨ (48 ≤ c ∧ c ≤ 57) then false
  else if c = 45 ∨ c = 95 ∨ c = 46 ∨ c = 126 then false
  else true

/-- What `net/url.escape` writes for one byte in query-component mode: `+` for a
space, `%XX` with upper-case hexadecimal digits for an escaped byte, the byte itself
otherwise. -/
def escapeByte (c : Nat) : List Char :=
  if c = 32 then ['+']
  else if shouldEscape c then ['%', hexDigit (c / 16), hexDigit (c % 16)]
  else [Char.ofNat c]

/-- Go standard library, `net/url.QueryEscape`, byte by byte over the string. -/
def QueryEscape (s : String) : String :=
  String.mk ((s.data.flatMap (fun c => utf8Bytes c.toNat)).flatMap escapeByte)

/-! ## Errors, configuration, models -/

/-- Modelled from the spec: Go `error` values; the constructors of package `errors`
that the repository calls are declared outside the files verified here.
`ModelNotFoundError` is what `errors.NewModelNotFoundError(kind, name)` builds: it
"carries the entity kind and the identifier searched for".  `WithError` is what
`errors.NewWithError(message, err)` builds, kept as its two arguments.  `failure`
stands for any error made by a collaborator (the gateway, `encoding/json`). -/
inductive GoError where
  | failure (text : String)
  | ModelNotFoundError (ModelType : String) (ModelName : String)
  | WithError (message : String) (err : GoError)
deriving DecidableEq, Repr

/-- The part of `models.SpaceFields` that the repository reads. -/
structure SpaceFields where
  Guid : String
deriving DecidableEq, Repr

/-- The part of `core_config.Reader` that the repository reads. -/
structure Config where
  ApiEndpoint : String
  SpaceFields : SpaceFields
deriving DecidableEq, Repr

/-- A Go map with string keys: `none` is the nil map, `some kv` a map holding the
entries `kv`, listed in one of its iteration orders. -/
abbrev GoMap (V : Type) := Option (List (String × V))

/-- The entries of a Go map; a nil map has none. -/
def GoMap.entries {V : Type} : GoMap V → List (String × V)
  | none => []
  | some kv => kv

/-- Go `len(m)`. -/
def GoMap.len {V : Type} (m : GoMap V) : Nat := m.entries.length

/-- Modelled from the spec: a value of the `System` group ("string→arbitrary
structured value, e.g. nested service-binding data"): a nested mapping with its
entries in declaration order, or anything else, kept as its raw text. -/
inductive Value where
  | raw (text : String)
  | mapping (entries : List (String × Value))

set_option linter.dupNamespace false in
/-- Modelled from the spec: the type `models.Environment`, declared outside the files
verified here: "four independent mappings", with the field names its test uses. -/
structure Environment where
  Environment : GoMap String
  System : GoMap Value
  Running : GoMap String
  Staging : GoMap String

/-- The Go composite literal `models.Environment{}`: every map is nil. -/
def zeroEnvironment : Environment := ⟨none, none, none, none⟩

/-- The type `resources.PaginatedApplicationResources`, of which the repository reads
the field `Resources`; `R` is `resources.ApplicationResource`. -/
structure PaginatedApplicationResources (R : Type) where
  Resources : List R
deriving DecidableEq, Repr

/-- What the repository uses from packages `resources`, `models`, `i18n` and
`encoding/json`, whose declarations are outside the files verified here; taken as
parameters.  `R` is `resources.ApplicationResource`, `A` is `models.Application`,
`P` is `models.AppParams`. -/
structure Deps (R A P : Type) where
  /-- The zero value of `models.Application`. -/
  zeroApplication : A
  /-- The pointee of `new(resources.ApplicationResource)`. -/
  newApplicationResource : R
  /-- The method `ApplicationResource.ToModel`. -/
  ToModel : R → A
  /-- The pair `(string(bytes), err)` of
  `json.Marshal(resources.NewApplicationEntityFromAppParams(input))`. -/
  marshal : P → String × Option GoError
  /-- The pointee of `models.NewEnvironment()`. -/
  NewEnvironment : Environment
  /-- The translation function `i18n.T`. -/
  T : String → String

/-! ## The gateway -/

/-- The dynamic type of the output argument handed to a gateway call. -/
inductive OutKind where
  | nil
  | applicationResource
  | paginatedApplicationResources
  | environment
deriving DecidableEq, Repr

/-- The pointee of an output argument of the given kind. -/
@[reducible] def Out (R : Type) : OutKind → Type
  | .nil => Unit
  | .applicationResource => R
  | .paginatedApplicationResources => PaginatedApplicationResources R
  | .environment => Environment

/-- The interface `net.Gateway` as the repository uses it.  `σ` is whatever state
the gateway and the server behind it have.  A method may write into its output
argument and fail all the same. -/
structure Gateway (σ R : Type) where
  CreateResource : (k : OutKind) → String → String → Out R k → σ → Out R k × Option GoError × σ
  GetResource : (k : OutKind) → String → Out R k → σ → Out R k × Option GoError × σ
  UpdateResource : (k : OutKind) → String → String → Out R k → σ → Out R k × Option GoError × σ
  DeleteResource : String → σ → Option GoError × σ

/-- One call through the gateway, as logged: the method, the address, the request
body where there is one, and the kind of output argument. -/
inductive GatewayCall where
  | CreateResource (path : String) (body : String) (out : OutKind)
  | GetResource (path : String) (out : OutKind)
  | UpdateResource (path : String) (body : String) (out : OutKind)
  | DeleteResource (path : String)
deriving DecidableEq, Repr

/-- The gateway's state and the calls made so far, oldest first. -/
structure World (σ : Type) where
  gateway : σ
  calls : List GatewayCall

/-- The type `CloudControllerApplicationRepository`. -/
structure CloudControllerApplicationRepository (σ R : Type) where
  config : Config
  gateway : Gateway σ R

namespace CloudControllerApplicationRepository

variable {σ R A P : Type}

/-- The call `repo.gateway.CreateResource(path, strings.NewReader(body), out)`, logged. -/
def gatewayCreate (repo : CloudControllerApplicationRepository σ R) (k : OutKind)
    (path body : String) (out : Out R k) (w : World σ) : (Out R k × Option GoError) × World σ :=
  let r := repo.gateway.CreateResource k path body out w.gateway
  ((r.1, r.2.1), ⟨r.2.2, w.calls ++ [GatewayCall.CreateResource path body k]⟩)

/-- The call `repo.gateway.GetResource(path, out)`, logged. -/
def gatewayGet (repo : CloudControllerApplicationRepository σ R) (k : OutKind)
    (path : String) (out : Out R k) (w : World σ) : (Out R k × Option GoError) × World σ :=
  let r := repo.gateway.GetResource k path out w.gateway
  ((r.1, r.2.1), ⟨r.2.2, w.calls ++ [GatewayCall.GetResource path k]⟩)

/-- The call `repo.gateway.UpdateResource(path, strings.NewReader(body), out)`, logged. -/
def gatewayUpdate (repo : CloudControllerApplicationRepository σ R) (k : OutKind)
    (path body : String) (out : Out R k) (w : World σ) : (Out R k × Option GoError) × World σ :=
  let r := repo.gateway.UpdateResource k path body out w.gateway
  ((r.1, r.2.1), ⟨r.2.2, w.calls ++ [GatewayCall.UpdateResource path body k]⟩)

/-- The call `repo.gateway.DeleteResource(path)`, logged. -/
def gatewayDelete (repo : CloudControllerApplicationRepository σ R)
    (path : String) (w : World σ) : Option GoError × World σ :=
  let r := repo.gateway.DeleteResource path w.gateway
  (r.1, ⟨r.2, w.calls ++ [GatewayCall.DeleteResource path]⟩)

/-- The method `formatAppJSON`. -/
def formatAppJSON (d : Deps R A P) (_repo : CloudControllerApplicationRepository σ R)
    (input : P) : String × Option GoError :=
  d.marshal input

/-- The method `Create`. -/
def Create (d : Deps R A P) (repo : CloudControllerApplicationRepository σ R)
    (params : P) (w : World σ) : (A × Option GoError) × World σ :=
  match formatAppJSON d repo params with
  | (_, some err) =>
    ((d.zeroApplication, some (GoError.WithError (d.T "Failed to marshal JSON") err)), w)
  | (data, none) =>
    let path := repo.config.ApiEndpoint ++ "/v2/apps"
    let resource : Out R .applicationResource := d.newApplicationResource
    match repo.gatewayCreate .applicationResource path data resource w with
    | ((_, some apiErr), w1) => ((d.zeroApplication, some apiErr), w1)
    | ((resource1, none), w1) => ((d.ToModel resource1, none), w1)

/-- The method `Read`. -/
def Read (d : Deps R A P) (repo : CloudControllerApplicationRepository σ R)
    (name : String) (w : World σ) : (A × Option GoError) × World σ :=
  let path := repo.config.ApiEndpoint ++ "/v2/spaces/" ++ repo.config.SpaceFields.Guid
    ++ "/apps?q=" ++ QueryEscape ("name:" ++ name) ++ "&inline-relations-depth=1"
  let appResources : Out R .paginatedApplicationResources := ⟨[]⟩
  match repo.gatewayGet .paginatedApplicationResources path appResources w with
  | ((_, some apiErr), w1) => ((d.zeroApplication, some apiErr), w1)
  | ((appResources1, none), w1) =>
    match appResources1.Resources with
    | [] => ((d.zeroApplication, some (GoError.ModelNotFoundError "App" name)), w1)
    | res :: _ => ((d.ToModel res, none), w1)

/-- The method `Update`. -/
def Update (d : Deps R A P) (repo : CloudControllerApplicationRepository σ R)
    (appGuid : String) (params : P) (w : World σ) : (A × Option GoError) × World σ :=
  match formatAppJSON d repo params with
  | (_, some err) =>
    ((d.zeroApplication, some (GoError.WithError (d.T "Failed to marshal JSON") err)), w)
  | (data, none) =>
    let path := repo.config.ApiEndpoint ++ "/v2/apps/" ++ appGuid ++ "?inline-relations-depth=1"
    let resource : Out R .applicationResource := d.newApplicationResource
    match repo.gatewayUpdate .applicationResource path data resource w with
    | ((_, some apiErr), w1) => ((d.zeroApplication, some apiErr), w1)
    | ((resource1, none), w1) => ((d.ToModel resource1, none), w1)

/-- The method `Delete`. -/
def Delete (repo : CloudControllerApplicationRepository σ R)
    (appGuid : String) (w : World σ) : Option GoError × World σ :=
  let path := repo.config.ApiEndpoint ++ "/v2/apps/" ++ appGuid ++ "?recursive=true"
  repo.gatewayDelete path w

/-- The method `ReadEnv`.  The first component is the pointee of the returned
`*models.Environment`, which is never nil. -/
def ReadEnv (d : Deps R A P) (repo : CloudControllerApplicationRepository σ R)
    (guid : String) (w : World σ) : (Environment × Option GoError) × World σ :=
  let path := repo.config.ApiEndpoint ++ "/v2/apps/" ++ guid ++ "/env"
  let appResource : Out R .environment := d.NewEnvironment
  match repo.gatewayGet .environment path appResource w with
  | ((_, some err), w1) => ((zeroEnvironment, some err), w1)
  | ((appResource1, none), w1) => ((appResource1, none), w1)

/-- The method `CreateRestageRequest`. -/
def CreateRestageRequest (repo : CloudControllerApplicationRepository σ R)
    (guid : String) (w : World σ) : Option GoError × World σ :=
  let path := repo.config.ApiEndpoint ++ "/v2/apps/" ++ guid ++ "/restage"
  match repo.gatewayCreate .nil path "" () w with
  | ((_, err), w1) => (err, w1)

end CloudControllerApplicationRepository

/-! ## `ShowOrg.GetRequirements` -/

/-- The steps `GetRequirements` can take once it has compared `len(c.Args())` with 1,
in the order in which it takes them. -/
inductive Step where
  | FailWithUsage
  | IndexArgs (i : Nat)
  | NewOrganizationRequirement (name : String)
  | NewLoginRequirement
deriving DecidableEq, Repr

/-- The interface `terminal.UI` as `GetRequirements` uses it.  Its implementations
are outside the files verified here; the field says whether a call of
`FailWithUsage` comes back to its caller.  The user interfaces of the repository end
the command inside `FailWithUsage` (the terminal one leaves the process, the test
double unwinds the stack: `env_test.go` expects a command run without arguments to
have failed with usage and not to have passed its requirements), which is the value
`false`. -/
structure UI where
  FailWithUsageReturns : Bool
deriving DecidableEq, Repr

/-- The interface `requirements.Factory` as `GetRequirements` uses it.  `Req` is the
interface `requirements.Requirement`, `OrgReq` the interface
`requirements.OrganizationRequirement`, which embeds the former: `asRequirement` is
that interface conversion. -/
structure Factory (Req OrgReq : Type) where
  NewLoginRequirement : Req
  NewOrganizationRequirement : String → OrgReq
  asRequirement : OrgReq → Req

/-- The type `ShowOrg`; `orgReq` is `none` while the interface value is nil. -/
structure ShowOrg (OrgReq : Type) where
  ui : UI
  config : Config
  orgReq : Option OrgReq

/-- How a Go call ends: it returns its results, or a callee never comes back, or
an index expression is out of range. -/
inductive Completion (α : Type) where
  | returned (results : α)
  | terminated
  | indexOutOfRange
deriving DecidableEq, Repr

/-- A run of `GetRequirements`: the steps taken, how the call ended, and the
receiver afterwards. -/
structure Run (Req OrgReq : Type) where
  steps : List Step
  completion : Completion (List Req × Option GoError)
  cmd : ShowOrg OrgReq

/-- The method `ShowOrg.GetRequirements`; `args` is `c.Args()`.  The result `err`
is never assigned and stays nil. -/
def ShowOrg.GetRequirements {Req OrgReq : Type} (cmd : ShowOrg OrgReq)
    (requirementsFactory : Factory Req OrgReq) (args : List String) : Run Req OrgReq :=
  if args.length ≠ 1 ∧ cmd.ui.FailWithUsageReturns = false then
    ⟨[Step.FailWithUsage], Completion.terminated, cmd⟩
  else
    let signalled : List Step := if args.length ≠ 1 then [Step.FailWithUsage] else []
    match args with
    | [] => ⟨signalled ++ [Step.IndexArgs 0], Completion.indexOutOfRange, cmd⟩
    | arg0 :: _ =>
      let orgReq := requirementsFactory.NewOrganizationRequirement arg0
      let reqs := [requirementsFactory.NewLoginRequirement, requirementsFactory.asRequirement orgReq]
      ⟨signalled ++ [Step.IndexArgs 0, Step.NewOrganizationRequirement arg0, Step.NewLoginRequirement],
        Completion.returned (reqs, none), { cmd with orgReq := some orgReq }⟩

/-- Modelled from the spec: the driver of the requirement layer, which is not among
the files verified here: "a driver evaluates them strictly in order and stops at the
first failure, meaning later requirements are never evaluated and their side effects
never occur".  `execute r s` is `r.Execute()` in state `s`.  The result says whether
every requirement passed, gives the state afterwards and lists the requirements that
were executed. -/
def runRequirements {Req S : Type} (execute : Req → S → Bool × S) :
    List Req → S → Bool × S × List Req
  | [], s => (true, s, [])
  | r :: rs, s =>
    match execute r s with
    | (false, s1) => (false, s1, [r])
    | (true, s1) =>
      match runRequirements execute rs s1 with
      | (ok, s2, executed) => (ok, s2, r :: executed)

/-! ## Rendering of an environment by the `env` command -/

/-- Modelled from the spec: "lexicographic by key", character by character. -/
def keyLE (a b : String) : Prop := a.data ≤ b.data

instance keyLE.decidable : DecidableRel keyLE :=
  fun a b => inferInstanceAs (Decidable (a.data ≤ b.data))

instance keyLE.isTotal : IsTotal String keyLE :=
  ⟨fun a b => le_total a.data b.data⟩

instance keyLE.isTrans : IsTrans String keyLE :=
  ⟨fun a _ _ hab hbc => le_trans (a := a.data) hab hbc⟩

instance keyLE.isAntisymm : IsAntisymm String keyLE :=
  ⟨fun a _ hab hba => String.ext (le_antisymm (a := a.data) hab hba)⟩

/-- Modelled from the spec: one thing the `env` command writes: a group heading, a
variable with its value, a variable whose value is a nested mapping written as a
bracketed block, or a message. -/
inductive OutputLine where
  | heading (text : String)
  | entry (key : String) (value : String)
  | block (key : String) (entries : List (String × Value))
  | message (text : String)

/-- Modelled from the spec: the keys of a map "sorted lexicographically ascending". -/
def sortedKeys {V : Type} (m : GoMap V) : List String :=
  (m.entries.map Prod.fst).insertionSort keyLE

/-- Modelled from the spec: the rendering of one group of string variables by the
`env` command, whose source is not among the files verified here (its test is):
"keys sorted lexicographically ascending", and "any group with zero entries renders
a literal message for that group instead of an empty block". -/
def renderGroup (heading emptyMessage : String) (m : GoMap String) : List OutputLine :=
  if m.len = 0 then [OutputLine.message emptyMessage]
  else OutputLine.heading heading ::
    (sortedKeys m).map (fun key => OutputLine.entry key ((m.entries.lookup key).getD ""))

/-- Modelled from the spec: the rendering of the `System` group by the `env` command,
whose source is not among the files verified here: "each top-level key rendered; if
the value is itself a nested mapping, render it as a bracketed key:value block with
keys in insertion/declaration order of the nested structure, otherwise render the raw
value". -/
def renderSystem (m : GoMap Value) : List OutputLine :=
  if m.len = 0 then [OutputLine.message "No system-provided env variables have been set"]
  else OutputLine.heading "System-Provided:" ::
    m.entries.map (fun kv =>
      match kv.2 with
      | Value.mapping entries => OutputLine.block kv.1 entries
      | Value.raw text => OutputLine.entry kv.1 text)

/-- Modelled from the spec: the rendering of the user-defined group. -/
def renderUserProvided (env : Environment) : List OutputLine :=
  renderGroup "User-Provided:" "No user-defined env variables have been set" env.Environment

/-- Modelled from the spec: the output of the `env` command for a fetched environment,
whose source is not among the files verified here: the groups "in this fixed order:
System-Provided group, User-Provided group, Running Environment Variable Groups,
Staging Environment Variable Groups".  Headings and messages are those its test
expects. -/
def renderEnvironment (env : Environment) : List OutputLine :=
  renderSystem env.System
    ++ renderUserProvided env
    ++ renderGroup "Running Environment Variable Groups:"
        "No running env variables have been set" env.Running
    ++ renderGroup "Staging Environment Variable Groups:"
        "No staging env variables have been set" env.Staging

/-! ## Concrete collaborators, used to evaluate the definitions -/

/-- Collaborators in which a resource and a model are both identified with a GUID,
marshalling never fails, and a new environment has four empty non-nil maps. -/
def exampleDeps : Deps String String String where
  zeroApplication := ""
  newApplicationResource := ""
  ToModel := fun r => r
  marshal := fun input => (input, none)
  NewEnvironment := ⟨some [], some [], some [], some []⟩
  T := fun text => text

/-- A gateway that answers every search with the page `page` and accepts every other
request without touching its output argument. -/
def pageGateway (page : List String) : Gateway Unit String where
  CreateResource := fun _ _ _ out s => (out, none, s)
  GetResource := fun k _ out s =>
    match k, out with
    | .paginatedApplicationResources, _ => (⟨page⟩, none, s)
    | _, out => (out, none, s)
  UpdateResource := fun _ _ _ out s => (out, none, s)
  DeleteResource := fun _ s => (none, s)

/-- A gateway on which every request fails with `e`, after it has written a variable
into the environment it was given, if it was given one. -/
def failingGateway (e : GoError) : Gateway Unit String where
  CreateResource := fun _ _ _ out s => (out, some e, s)
  GetResource := fun k _ out s =>
    match k, out with
    | .environment, _ => (⟨some [("LEFTOVER", "1")], none, none, none⟩, some e, s)
    | _, out => (out, some e, s)
  UpdateResource := fun _ _ _ out s => (out, some e, s)
  DeleteResource := fun _ s => (some e, s)

/-- A session targeting `https://api.example.com` and the space `my-space-guid`. -/
def exampleConfig : Config := ⟨"https://api.example.com", ⟨"my-space-guid"⟩⟩

/-- A world in which no call has been made yet. -/
def freshWorld : World Unit := ⟨(), []⟩

/-- Requirements told apart by what they check. -/
inductive ExampleRequirement where
  | login
  | organization (name : String)
deriving DecidableEq, Repr

/-- A factory of `ExampleRequirement`s. -/
def exampleFactory : Factory ExampleRequirement ExampleRequirement where
  NewLoginRequirement := ExampleRequirement.login
  NewOrganizationRequirement := ExampleRequirement.organization
  asRequirement := fun r => r

/-- Execution of an `ExampleRequirement` by a user who is not logged in: the login
requirement fails; resolving an organization would succeed and is counted. -/
def executeLoggedOut : ExampleRequirement → Nat → Bool × Nat
  | ExampleRequirement.login, resolved => (false, resolved)
  | ExampleRequirement.organization _, resolved => (true, resolved + 1)

/-- The environment of the test "lists those environment variables, in sorted order
for provided services" in `env_test.go`. -/
def testEnvironment : Environment where
  Environment := some [("my-key", "my-value"), ("my-key2", "my-value2"), ("first-key", "Zer0")]
  System := some [("VCAP_SERVICES", Value.mapping [("pump-yer-brakes", Value.raw "drive-slow")])]
  Running := none
  Staging := none

/-- The environment `testEnvironment` with its user-defined map iterated in another
order. -/
def reorderedEnvironment : Environment where
  Environment := some [("first-key", "Zer0"), ("my-key2", "my-value2"), ("my-key", "my-value")]
  System := none
  Running := none
  Staging := none

/-! ## Properties of the application repository -/

namespace CloudControllerApplicationRepository

variable {σ R A P : Type}

/-- `QueryEscape` works through its argument from left to right. -/
theorem QueryEscape_append (s t : String) :
    QueryEscape (s ++ t) = QueryEscape s ++ QueryEscape t := by
  apply String.ext
  simp [QueryEscape, String.data_append, List.flatMap_append]

/-- The colon of the name filter is escaped. -/
theorem QueryEscape_name_filter (name : String) :
    QueryEscape ("name:" ++ name) = "name%3A" ++ QueryEscape name := by
  rw [QueryEscape_append]
  have h : QueryEscape "name:" = "name%3A" := by decide
  rw [h]

/-- C1.  When the search made by `Read(name)` succeeds and leaves a page without
resources, `Read` returns the not-found error for the kind "App" that carries `name`
as it was passed in, and so not a nil error. -/
theorem Read_empty_page_not_found (d : Deps R A P)
    (repo : CloudControllerApplicationRepository σ R) (name : String) (w : World σ)
    (page : PaginatedApplicationResources R) (s1 : σ)
    (hget : repo.gateway.GetResource .paginatedApplicationResources
      (repo.config.ApiEndpoint ++ "/v2/spaces/" ++ repo.config.SpaceFields.Guid
        ++ "/apps?q=" ++ QueryEscape ("name:" ++ name) ++ "&inline-relations-depth=1")
      ⟨[]⟩ w.gateway = (page, none, s1))
    (hempty : page.Resources.length = 0) :
    (Read d repo name w).1.2 = some (GoError.ModelNotFoundError "App" name)
      ∧ (Read d repo name w).1.2 ≠ none := by
  have hnil : page.Resources = [] := List.length_eq_zero.mp hempty
  simp [Read, gatewayGet, hget, hnil]

/-- The search of `pageGateway []` matches nothing, and `Read` reports the name it
was asked for, here one that `QueryEscape` rewrites in the address. -/
theorem Read_empty_page_not_found_witness :
    (Read exampleDeps ⟨exampleConfig, pageGateway []⟩ "my app" freshWorld).1.2
        = some (GoError.ModelNotFoundError "App" "my app")
      ∧ (Read exampleDeps ⟨exampleConfig, pageGateway []⟩ "my app" freshWorld).1.2 ≠ none :=
  Read_empty_page_not_found exampleDeps ⟨exampleConfig, pageGateway []⟩ "my app" freshWorld
    ⟨[]⟩ () rfl rfl

/-- C2.  When the search made by `Read(name)` succeeds with a page whose first
resource is `res`, `Read` returns a nil error and `ToModel` of `res`, whatever
resources follow it; so, for any way of reading a GUID off a resource and off a
model that `ToModel` respects, the GUID returned is that of `res`. -/
theorem Read_first_resource (d : Deps R A P)
    (repo : CloudControllerApplicationRepository σ R) (name : String) (w : World σ)
    (page : PaginatedApplicationResources R) (s1 : σ) (res : R) (others : List R)
    (hget : repo.gateway.GetResource .paginatedApplicationResources
      (repo.config.ApiEndpoint ++ "/v2/spaces/" ++ repo.config.SpaceFields.Guid
        ++ "/apps?q=" ++ QueryEscape ("name:" ++ name) ++ "&inline-relations-depth=1")
      ⟨[]⟩ w.gateway = (page, none, s1))
    (hpage : page.Resources = res :: others) :
    (Read d repo name w).1 = (d.ToModel res, none)
      ∧ ∀ (resourceGuid : R → String) (modelGuid : A → String),
          (∀ r, modelGuid (d.ToModel r) = resourceGuid r) →
          modelGuid (Read d repo name w).1.1 = resourceGuid res := by
  have hread : (Read d repo name w).1 = (d.ToModel res, none) := by
    simp [Read, gatewayGet, hget, hpage]
  refine ⟨hread, ?_⟩
  intro resourceGuid modelGuid hguid
  rw [hread]
  exact hguid res

/-- On a page of three matches `Read` returns the first one. -/
theorem Read_first_resource_witness :
    (Read exampleDeps ⟨exampleConfig, pageGateway ["guid-1", "guid-2", "guid-3"]⟩
        "my-app" freshWorld).1 = ("guid-1", none)
      ∧ ∀ (resourceGuid modelGuid : String → String),
          (∀ r, modelGuid (exampleDeps.ToModel r) = resourceGuid r) →
          modelGuid (Read exampleDeps ⟨exampleConfig, pageGateway ["guid-1", "guid-2", "guid-3"]⟩
            "my-app" freshWorld).1.1 = resourceGuid "guid-1" :=
  Read_first_resource exampleDeps ⟨exampleConfig, pageGateway ["guid-1", "guid-2", "guid-3"]⟩
    "my-app" freshWorld ⟨["guid-1", "guid-2", "guid-3"]⟩ () "guid-1" ["guid-2", "guid-3"] rfl rfl

/-- C3, as stated, fails: for the app name `my-app` the address handed to
`GetResource` is not the one with `q=name:my-app`; the colon arrives as `%3A`. -/
theorem Read_address_is_not_verbatim :
    (Read exampleDeps ⟨exampleConfig, pageGateway []⟩ "my-app" freshWorld).2.calls
        ≠ [GatewayCall.GetResource
            ("https://api.example.com" ++ "/v2/spaces/" ++ "my-space-guid" ++ "/apps?q=name:"
              ++ "my-app" ++ "&inline-relations-depth=1")
            .paginatedApplicationResources]
      ∧ (Read exampleDeps ⟨exampleConfig, pageGateway []⟩ "my-app" freshWorld).2.calls
        = [GatewayCall.GetResource
            "https://api.example.com/v2/spaces/my-space-guid/apps?q=name%3Amy-app&inline-relations-depth=1"
            .paginatedApplicationResources] := by
  decide

/-- C3, amended.  `Read(name)` makes exactly one gateway call, a `GetResource` whose
address is the base endpoint, `/v2/spaces/`, the space GUID, `/apps?q=`, the query
escape of `name:` followed by `name`, and `&inline-relations-depth=1`; that escape
is `name%3A` followed by the query escape of `name`. -/
theorem Read_address (d : Deps R A P)
    (repo : CloudControllerApplicationRepository σ R) (name : String) (w : World σ) :
    (Read d repo name w).2.calls
        = w.calls ++ [GatewayCall.GetResource
            (repo.config.ApiEndpoint ++ "/v2/spaces/" ++ repo.config.SpaceFields.Guid
              ++ "/apps?q=" ++ QueryEscape ("name:" ++ name) ++ "&inline-relations-depth=1")
            .paginatedApplicationResources]
      ∧ QueryEscape ("name:" ++ name) = "name%3A" ++ QueryEscape name := by
  refine ⟨?_, QueryEscape_name_filter name⟩
  simp only [Read, gatewayGet]
  split
  · rename_i heq
    rw [← (Prod.mk.inj heq).2]
  · rename_i heq
    split <;> rw [← (Prod.mk.inj heq).2]

/-- C4.  `Delete(guid)` makes exactly one gateway call, a `DeleteResource` on the
base endpoint followed by `/v2/apps/`, the GUID and `?recursive=true`, for every
GUID, the empty one included, and returns what that call returns. -/
theorem Delete_is_recursive (repo : CloudControllerApplicationRepository σ R)
    (appGuid : String) (w : World σ) :
    (Delete repo appGuid w).2.calls
        = w.calls ++ [GatewayCall.DeleteResource
            (repo.config.ApiEndpoint ++ "/v2/apps/" ++ appGuid ++ "?recursive=true")]
      ∧ (Delete repo "" w).2.calls
        = w.calls ++ [GatewayCall.DeleteResource
            (repo.config.ApiEndpoint ++ "/v2/apps/" ++ "" ++ "?recursive=true")]
      ∧ (Delete repo appGuid w).1
        = (repo.gateway.DeleteResource
            (repo.config.ApiEndpoint ++ "/v2/apps/" ++ appGuid ++ "?recursive=true") w.gateway).1 :=
  ⟨rfl, rfl, rfl⟩

/-- C5.  When the `GetResource` call made by `ReadEnv(guid)` fails with `e`,
`ReadEnv` returns `e` with an environment whose four groups have no entries,
whatever the gateway wrote into the environment it was given; when the call
succeeds, `ReadEnv` returns a nil error with the environment the gateway filled. -/
theorem ReadEnv_result (d : Deps R A P)
    (repo : CloudControllerApplicationRepository σ R) (guid : String) (w : World σ)
    (written : Environment) (s1 : σ) :
    (∀ e : GoError,
        repo.gateway.GetResource .environment
          (repo.config.ApiEndpoint ++ "/v2/apps/" ++ guid ++ "/env") d.NewEnvironment w.gateway
          = (written, some e, s1) →
        (ReadEnv d repo guid w).1.2 = some e
          ∧ (ReadEnv d repo guid w).1.1.Environment.len = 0
          ∧ (ReadEnv d repo guid w).1.1.System.len = 0
          ∧ (ReadEnv d repo guid w).1.1.Running.len = 0
          ∧ (ReadEnv d repo guid w).1.1.Staging.len = 0)
      ∧ (repo.gateway.GetResource .environment
          (repo.config.ApiEndpoint ++ "/v2/apps/" ++ guid ++ "/env") d.NewEnvironment w.gateway
          = (written, none, s1) →
        (ReadEnv d repo guid w).1 = (written, none)) := by
  constructor
  · intro e hget
    simp [ReadEnv, gatewayGet, hget, zeroEnvironment, GoMap.len, GoMap.entries]
  · intro hget
    simp [ReadEnv, gatewayGet, hget]

/-- On `failingGateway`, which leaves a variable in the environment before it fails,
`ReadEnv` returns the error and four empty groups. -/
theorem ReadEnv_result_witness :
    (ReadEnv exampleDeps ⟨exampleConfig, failingGateway (GoError.failure "timeout")⟩
        "the-app-guid" freshWorld).1.2 = some (GoError.failure "timeout")
      ∧ (ReadEnv exampleDeps ⟨exampleConfig, failingGateway (GoError.failure "timeout")⟩
        "the-app-guid" freshWorld).1.1.Environment.len = 0
      ∧ (ReadEnv exampleDeps ⟨exampleConfig, failingGateway (GoError.failure "timeout")⟩
        "the-app-guid" freshWorld).1.1.System.len = 0
      ∧ (ReadEnv exampleDeps ⟨exampleConfig, failingGateway (GoError.failure "timeout")⟩
        "the-app-guid" freshWorld).1.1.Running.len = 0
      ∧ (ReadEnv exampleDeps ⟨exampleConfig, failingGateway (GoError.failure "timeout")⟩
        "the-app-guid" freshWorld).1.1.Staging.len = 0 :=
  (ReadEnv_result exampleDeps ⟨exampleConfig, failingGateway (GoError.failure "timeout")⟩
    "the-app-guid" freshWorld ⟨some [("LEFTOVER", "1")], none, none, none⟩ ()).1
    (GoError.failure "timeout") rfl

/-- C6.  `CreateRestageRequest(guid)` makes exactly one gateway call, a
`CreateResource` on the base endpoint followed by `/v2/apps/`, the GUID and
`/restage`, with an empty body and a nil output argument; it returns the error of
that call, so it succeeds exactly when the gateway accepts the request. -/
theorem CreateRestageRequest_single_post (repo : CloudControllerApplicationRepository σ R)
    (guid : String) (w : World σ) :
    (CreateRestageRequest repo guid w).2.calls
        = w.calls ++ [GatewayCall.CreateResource
            (repo.config.ApiEndpoint ++ "/v2/apps/" ++ guid ++ "/restage") "" .nil]
      ∧ (CreateRestageRequest repo guid w).1
        = (repo.gateway.CreateResource .nil
            (repo.config.ApiEndpoint ++ "/v2/apps/" ++ guid ++ "/restage") "" () w.gateway).2.1
      ∧ ((CreateRestageRequest repo guid w).1 = none ↔
          (repo.gateway.CreateResource .nil
            (repo.config.ApiEndpoint ++ "/v2/apps/" ++ guid ++ "/restage") "" () w.gateway).2.1
            = none) :=
  ⟨rfl, rfl, Iff.rfl⟩

/-- C7.  In each of the six operations, when the one gateway call it makes returns
the error `e`, the operation returns `e` itself; `Create`, `Read` and `Update` return
it with the zero-valued model, and `ToModel` is not applied. -/
theorem gateway_error_is_returned (d : Deps R A P)
    (repo : CloudControllerApplicationRepository σ R) (w : World σ) (e : GoError) (s1 : σ) :
    (∀ (params : P) (data : String) (out : R),
        d.marshal params = (data, none) →
        repo.gateway.CreateResource .applicationResource
          (repo.config.ApiEndpoint ++ "/v2/apps") data d.newApplicationResource w.gateway
          = (out, some e, s1) →
        (Create d repo params w).1 = (d.zeroApplication, some e))
      ∧ (∀ (name : String) (out : PaginatedApplicationResources R),
        repo.gateway.GetResource .paginatedApplicationResources
          (repo.config.ApiEndpoint ++ "/v2/spaces/" ++ repo.config.SpaceFields.Guid
            ++ "/apps?q=" ++ QueryEscape ("name:" ++ name) ++ "&inline-relations-depth=1")
          ⟨[]⟩ w.gateway = (out, some e, s1) →
        (Read d repo name w).1 = (d.zeroApplication, some e))
      ∧ (∀ (appGuid : String) (params : P) (data : String) (out : R),
        d.marshal params = (data, none) →
        repo.gateway.UpdateResource .applicationResource
          (repo.config.ApiEndpoint ++ "/v2/apps/" ++ appGuid ++ "?inline-relations-depth=1")
          data d.newApplicationResource w.gateway = (out, some e, s1) →
        (Update d repo appGuid params w).1 = (d.zeroApplication, some e))
      ∧ (∀ (appGuid : String),
        repo.gateway.DeleteResource
          (repo.config.ApiEndpoint ++ "/v2/apps/" ++ appGuid ++ "?recursive=true") w.gateway
          = (some e, s1) →
        (Delete repo appGuid w).1 = some e)
      ∧ (∀ (guid : String) (out : Environment),
        repo.gateway.GetResource .environment
          (repo.config.ApiEndpoint ++ "/v2/apps/" ++ guid ++ "/env") d.NewEnvironment w.gateway
          = (out, some e, s1) →
        (ReadEnv d repo guid w).1.2 = some e)
      ∧ (∀ (guid : String),
        repo.gateway.CreateResource .nil
          (repo.config.ApiEndpoint ++ "/v2/apps/" ++ guid ++ "/restage") "" () w.gateway
          = ((), some e, s1) →
        (CreateRestageRequest repo guid w).1 = some e) := by
  refine ⟨?_, ?_, ?_, ?_, ?_, ?_⟩
  · intro params data out hmarshal hcall
    simp [Create, formatAppJSON, gatewayCreate, hmarshal, hcall]
  · intro name out hcall
    simp [Read, gatewayGet, hcall]
  · intro appGuid params data out hmarshal hcall
    simp [Update, formatAppJSON, gatewayUpdate, hmarshal, hcall]
  · intro appGuid hcall
    simp [Delete, gatewayDelete, hcall]
  · intro guid out hcall
    simp [ReadEnv, gatewayGet, hcall]
  · intro guid hcall
    simp [CreateRestageRequest, gatewayCreate, hcall]

/-- On `failingGateway` each of the six operations returns the gateway's error, and
`Create`, `Read` and `Update` return the zero-valued model with it. -/
theorem gateway_error_is_returned_witness :
    (Create exampleDeps ⟨exampleConfig, failingGateway (GoError.failure "timeout")⟩
        "{}" freshWorld).1 = ("", some (GoError.failure "timeout"))
      ∧ (Read exampleDeps ⟨exampleConfig, failingGateway (GoError.failure "timeout")⟩
        "my-app" freshWorld).1 = ("", some (GoError.failure "timeout"))
      ∧ (Update exampleDeps ⟨exampleConfig, failingGateway (GoError.failure "timeout")⟩
        "the-app-guid" "{}" freshWorld).1 = ("", some (GoError.failure "timeout"))
      ∧ (Delete ⟨exampleConfig, failingGateway (GoError.failure "timeout")⟩
        "the-app-guid" freshWorld).1 = some (GoError.failure "timeout")
      ∧ (ReadEnv exampleDeps ⟨exampleConfig, failingGateway (GoError.failure "timeout")⟩
        "the-app-guid" freshWorld).1.2 = some (GoError.failure "timeout")
      ∧ (CreateRestageRequest ⟨exampleConfig, failingGateway (GoError.failure "timeout")⟩
        "the-app-guid" freshWorld).1 = some (GoError.failure "timeout") :=
  have h := gateway_error_is_returned exampleDeps
    ⟨exampleConfig, failingGateway (GoError.failure "timeout")⟩ freshWorld
    (GoError.failure "timeout") ()
  ⟨h.1 "{}" "{}" "" rfl rfl,
    h.2.1 "my-app" ⟨[]⟩ rfl,
    h.2.2.1 "the-app-guid" "{}" "{}" "" rfl rfl,
    h.2.2.2.1 "the-app-guid" rfl,
    h.2.2.2.2.1 "the-app-guid" ⟨some [("LEFTOVER", "1")], none, none, none⟩ rfl,
    h.2.2.2.2.2 "the-app-guid" rfl⟩

end CloudControllerApplicationRepository

/-! ## Properties of `ShowOrg.GetRequirements` -/

/-- C8.  With a user interface whose `FailWithUsage` ends the command, as those of
the repository do, `GetRequirements` on an argument list whose length is not 1
signals a usage error and does nothing else: the arguments are not indexed, the
factory is not called, no list is made and the command is left as it was.  A list is
returned for exactly one argument and for no other number of arguments; for one
argument no usage error is signalled. -/
theorem GetRequirements_usage_failure {Req OrgReq : Type} (cmd : ShowOrg OrgReq)
    (requirementsFactory : Factory Req OrgReq) (args : List String)
    (hui : cmd.ui.FailWithUsageReturns = false) :
    (args.length ≠ 1 →
        (cmd.GetRequirements requirementsFactory args).steps = [Step.FailWithUsage]
          ∧ (cmd.GetRequirements requirementsFactory args).completion = Completion.terminated
          ∧ (cmd.GetRequirements requirementsFactory args).cmd = cmd)
      ∧ ((∃ results, (cmd.GetRequirements requirementsFactory args).completion
            = Completion.returned results) ↔ args.length = 1)
      ∧ ∀ arg : String,
          (cmd.GetRequirements requirementsFactory [arg]).steps
              = [Step.IndexArgs 0, Step.NewOrganizationRequirement arg, Step.NewLoginRequirement]
            ∧ (cmd.GetRequirements requirementsFactory [arg]).completion
              = Completion.returned
                  ([requirementsFactory.NewLoginRequirement,
                    requirementsFactory.asRequirement
                      (requirementsFactory.NewOrganizationRequirement arg)], none) := by
  have hstop : args.length ≠ 1 →
      cmd.GetRequirements requirementsFactory args
        = ⟨[Step.FailWithUsage], Completion.terminated, cmd⟩ := by
    intro hlen
    simp [ShowOrg.GetRequirements, hlen, hui]
  refine ⟨?_, ?_, ?_⟩
  · intro hlen
    rw [hstop hlen]
    exact ⟨rfl, rfl, rfl⟩
  · constructor
    · rintro ⟨results, hreturned⟩
      by_contra hlen
      rw [hstop hlen] at hreturned
      cases hreturned
    · intro hlen
      match args, hlen with
      | [arg], _ =>
        exact ⟨([requirementsFactory.NewLoginRequirement,
          requirementsFactory.asRequirement
            (requirementsFactory.NewOrganizationRequirement arg)], none),
          by simp [ShowOrg.GetRequirements]⟩
  · intro arg
    simp [ShowOrg.GetRequirements]

/-- With a `FailWithUsage` that ends the command, `GetRequirements` on two arguments
and on no argument stops at the usage error and returns no list. -/
theorem GetRequirements_usage_failure_witness :
    ((ShowOrg.GetRequirements ⟨⟨false⟩, exampleConfig, none⟩ exampleFactory
          ["org-a", "org-b"]).steps = [Step.FailWithUsage]
        ∧ (ShowOrg.GetRequirements ⟨⟨false⟩, exampleConfig, none⟩ exampleFactory
          ["org-a", "org-b"]).completion = Completion.terminated)
      ∧ ((ShowOrg.GetRequirements ⟨⟨false⟩, exampleConfig, none⟩ exampleFactory []).steps
          = [Step.FailWithUsage]
        ∧ (ShowOrg.GetRequirements ⟨⟨false⟩, exampleConfig, none⟩ exampleFactory
          []).completion = Completion.terminated) :=
  ⟨⟨((GetRequirements_usage_failure ⟨⟨false⟩, exampleConfig, none⟩ exampleFactory
        ["org-a", "org-b"] rfl).1 (by decide)).1,
    ((GetRequirements_usage_failure ⟨⟨false⟩, exampleConfig, none⟩ exampleFactory
        ["org-a", "org-b"] rfl).1 (by decide)).2.1⟩,
    ⟨((GetRequirements_usage_failure ⟨⟨false⟩, exampleConfig, none⟩ exampleFactory
        [] rfl).1 (by decide)).1,
    ((GetRequirements_usage_failure ⟨⟨false⟩, exampleConfig, none⟩ exampleFactory
        [] rfl).1 (by decide)).2.1⟩⟩

/-- C9.  For the argument list `[orgName]`, `GetRequirements` returns a nil error
and a list of exactly two requirements, the login requirement first and the
organization requirement for `orgName` second, the latter being the one it stores in
the command; and a driver that evaluates the list in order and stops at the first
failure executes the login requirement alone when that one fails. -/
theorem GetRequirements_login_before_org {Req OrgReq : Type} (cmd : ShowOrg OrgReq)
    (requirementsFactory : Factory Req OrgReq) (orgName : String) :
    (cmd.GetRequirements requirementsFactory [orgName]).completion
        = Completion.returned
            ([requirementsFactory.NewLoginRequirement,
              requirementsFactory.asRequirement
                (requirementsFactory.NewOrganizationRequirement orgName)], none)
      ∧ (cmd.GetRequirements requirementsFactory [orgName]).cmd.orgReq
        = some (requirementsFactory.NewOrganizationRequirement orgName)
      ∧ ∀ (S : Type) (execute : Req → S → Bool × S) (s : S),
          (execute requirementsFactory.NewLoginRequirement s).1 = false →
          runRequirements execute
              [requirementsFactory.NewLoginRequirement,
                requirementsFactory.asRequirement
                  (requirementsFactory.NewOrganizationRequirement orgName)] s
            = (false, (execute requirementsFactory.NewLoginRequirement s).2,
                [requirementsFactory.NewLoginRequirement]) := by
  refine ⟨by simp [ShowOrg.GetRequirements], by simp [ShowOrg.GetRequirements], ?_⟩
  intro S execute s hfail
  rw [runRequirements]
  split
  · rename_i s1 heq
    rw [heq]
  · rename_i s1 heq
    rw [heq] at hfail
    cases hfail

/-- For a user who is not logged in, the driver executes the login requirement of
`org my-org` and resolves no organization. -/
theorem GetRequirements_login_before_org_witness :
    runRequirements executeLoggedOut
        [ExampleRequirement.login, ExampleRequirement.organization "my-org"] 0
      = (false, 0, [ExampleRequirement.login]) :=
  (GetRequirements_login_before_org ⟨⟨false⟩, exampleConfig, none⟩ exampleFactory "my-org").2.2
    Nat executeLoggedOut 0 rfl


/-! ## Properties of the rendering -/

/-- The sorted keys are in ascending order. -/
theorem sortedKeys_sorted {V : Type} (m : GoMap V) : (sortedKeys m).Sorted keyLE :=
  List.sorted_insertionSort keyLE _

/-- Two iteration orders of the same entries give the same sorted keys. -/
theorem sortedKeys_of_perm {V : Type} (m1 m2 : GoMap V) (h : m1.entries.Perm m2.entries) :
    sortedKeys m1 = sortedKeys m2 := by
  apply List.eq_of_perm_of_sorted (r := keyLE) _ (sortedKeys_sorted m1) (sortedKeys_sorted m2)
  exact ((List.perm_insertionSort keyLE _).trans (h.map Prod.fst)).trans
    (List.perm_insertionSort keyLE _).symm

/-- With distinct keys, the value found for a key does not depend on the order of
the entries. -/
theorem lookup_of_perm {V : Type} (key : String) {kv1 kv2 : List (String × V)}
    (h : kv1.Perm kv2) (hnodup : (kv1.map Prod.fst).Nodup) :
    kv1.lookup key = kv2.lookup key := by
  induction h with
  | nil => rfl
  | cons x _ ih =>
    rw [List.map_cons, List.nodup_cons] at hnodup
    obtain ⟨k, v⟩ := x
    simp only [List.lookup_cons]
    split
    · rfl
    · exact ih hnodup.2
  | swap x y l =>
    obtain ⟨k1, v1⟩ := x
    obtain ⟨k2, v2⟩ := y
    simp only [List.map_cons, List.nodup_cons, List.mem_cons, not_or] at hnodup
    have hne : k2 ≠ k1 := hnodup.1.1
    simp only [List.lookup_cons]
    by_cases h1 : key = k1
    · subst h1
      have : (key == k2) = false := by simpa using fun h => hne h.symm
      simp [this]
    · have : (key == k1) = false := by simpa using h1
      simp [this]
  | trans h12 _ ih1 ih2 =>
    exact (ih1 hnodup).trans (ih2 ((h12.map Prod.fst).nodup_iff.mp hnodup))

/-- With distinct keys, every entry of the map is the one found for its key. -/
theorem lookup_of_mem {V : Type} (key : String) (value : V) :
    ∀ (kv : List (String × V)), (kv.map Prod.fst).Nodup → (key, value) ∈ kv →
      kv.lookup key = some value
  | [], _, hmem => by simp at hmem
  | (k, v) :: rest, hnodup, hmem => by
    rw [List.map_cons, List.nodup_cons] at hnodup
    rw [List.lookup_cons]
    rcases List.mem_cons.mp hmem with heq | hrest
    · cases heq
      simp
    · have hne : key ≠ k := by
        intro h
        subst h
        exact hnodup.1 (List.mem_map.mpr ⟨(key, value), hrest, rfl⟩)
      have : (key == k) = false := by simpa using hne
      rw [this]
      exact lookup_of_mem key value rest hnodup.2 hrest

/-- C10.  For an environment whose user-defined mapping is non-empty (its keys being
distinct, as in any map), the output of the `env` command is the system block, then
the heading "User-Provided:" followed by one entry per key of the mapping, each with
the value the mapping holds for it, in ascending lexicographic order of the keys,
then the running and staging blocks; and the user-provided block is the same for
every iteration order of the mapping. -/
theorem env_lists_user_provided_sorted (env : Environment)
    (hnonempty : env.Environment.len ≠ 0)
    (hkeys : (env.Environment.entries.map Prod.fst).Nodup) :
    renderEnvironment env
        = renderSystem env.System
          ++ (OutputLine.heading "User-Provided:" ::
              (sortedKeys env.Environment).map
                (fun key => OutputLine.entry key ((env.Environment.entries.lookup key).getD "")))
          ++ renderGroup "Running Environment Variable Groups:"
              "No running env variables have been set" env.Running
          ++ renderGroup "Staging Environment Variable Groups:"
              "No staging env variables have been set" env.Staging
      ∧ (sortedKeys env.Environment).Sorted keyLE
      ∧ (sortedKeys env.Environment).Perm (env.Environment.entries.map Prod.fst)
      ∧ (∀ key value, (key, value) ∈ env.Environment.entries →
          OutputLine.entry key value ∈ renderUserProvided env)
      ∧ ∀ other : Environment, other.Environment.entries.Perm env.Environment.entries →
          renderUserProvided other = renderUserProvided env := by
  have hblock : renderUserProvided env
      = OutputLine.heading "User-Provided:" ::
          (sortedKeys env.Environment).map
            (fun key => OutputLine.entry key ((env.Environment.entries.lookup key).getD "")) := by
    simp [renderUserProvided, renderGroup, hnonempty]
  refine ⟨?_, sortedKeys_sorted _, List.perm_insertionSort keyLE _, ?_, ?_⟩
  · rw [renderEnvironment, hblock]
  · intro key value hmem
    rw [hblock]
    apply List.mem_cons_of_mem
    apply List.mem_map.mpr
    refine ⟨key, ?_, ?_⟩
    · exact (List.perm_insertionSort keyLE _).mem_iff.mpr
        (List.mem_map.mpr ⟨(key, value), hmem, rfl⟩)
    · rw [lookup_of_mem key value _ hkeys hmem]
      rfl
  · intro other hperm
    have hlen : other.Environment.len = env.Environment.len := hperm.length_eq
    have hsorted : sortedKeys other.Environment = sortedKeys env.Environment :=
      sortedKeys_of_perm _ _ hperm
    have hlookup : ∀ key, other.Environment.entries.lookup key
        = env.Environment.entries.lookup key := fun key =>
      (lookup_of_perm key hperm.symm hkeys).symm
    simp only [renderUserProvided, renderGroup, hlen, hsorted, hlookup]

/-- For the environment of the test, the user-provided block lists `first-key`, then
`my-key`, then `my-key2`, and it is the block of the same map iterated in another
order. -/
theorem env_lists_user_provided_sorted_witness :
    renderUserProvided testEnvironment
        = [OutputLine.heading "User-Provided:", OutputLine.entry "first-key" "Zer0",
            OutputLine.entry "my-key" "my-value", OutputLine.entry "my-key2" "my-value2"]
      ∧ (sortedKeys testEnvironment.Environment).Sorted keyLE
      ∧ OutputLine.entry "my-key2" "my-value2" ∈ renderUserProvided testEnvironment
      ∧ renderUserProvided reorderedEnvironment = renderUserProvided testEnvironment :=
  have h := env_lists_user_provided_sorted testEnvironment (by decide) (by decide)
  ⟨rfl, h.2.1, h.2.2.2.1 "my-key2" "my-value2" (by decide), h.2.2.2.2 reorderedEnvironment (by decide)⟩

end CF
